import Mathlib

/-!
Shallow embedding of the mybank event-sourced bank-account aggregate
(src/src/main.rs, built on the cqrs-es crate).

Modelling conventions:
* monetary amounts (f64 in the source) are modelled as rationals;
* Rust mutation of `&mut self` becomes explicit state passing;
* a Rust `Result<T, E>` becomes `Except E T`;
* a panicking path (the projector's `todo!()` arms) is modelled as
  `Option.none`; panic-free code returns `Option.some`.
-/

instance {ε α : Type} [DecidableEq ε] [DecidableEq α] : DecidableEq (Except ε α) := fun x y =>
  match x, y with
  | Except.ok a, Except.ok b =>
      if h : a = b then Decidable.isTrue (by rw [h]) else Decidable.isFalse (by simp [h])
  | Except.error a, Except.error b =>
      if h : a = b then Decidable.isTrue (by rw [h]) else Decidable.isFalse (by simp [h])
  | Except.ok _, Except.error _ => Decidable.isFalse (by simp)
  | Except.error _, Except.ok _ => Decidable.isFalse (by simp)

/-- Commands requested by callers (`BankAccountCommand` in the source).
Commands are transient input and are never persisted. -/
inductive BankAccountCommand where
  | OpenAccount (account_id : String)
  | DepositMoney (amount : ℚ)
  | WithdrawMoney (amount : ℚ)
  | WriteCheck (check_number : String) (amount : ℚ)
  deriving DecidableEq, Repr

/-- Persisted domain events (`BankAccountEvent` in the source).  Each
money-moving event carries the resulting balance, not only the delta. -/
inductive BankAccountEvent where
  | AccountOpened (account_id : String)
  | CustomerDepositedMoney (amount : ℚ) (balance : ℚ)
  | CustomerWithdrewCash (amount : ℚ) (balance : ℚ)
  | CustomerWroteCheck (check_number : String) (amount : ℚ) (balance : ℚ)
  deriving DecidableEq, Repr

/-- Domain error: a newtype over the message string (`BankAccountError(String)`). -/
structure BankAccountError where
  message : String
  deriving DecidableEq, Repr

/-- Error kind of the ATM collaborator (`pub struct AtmError;`). -/
structure AtmError where
  deriving DecidableEq, Repr

/-- Error kind of the check-validation collaborator (`pub struct CheckingError;`). -/
structure CheckingError where
  deriving DecidableEq, Repr

/-- The injected Services collaborator consumed by `handle`
(`BankAccountServices` in the source), modelled as a record of its two
fallible methods so that distinct service behaviours can be injected. -/
structure BankAccountServices where
  atm_withdrawal : String → ℚ → Except AtmError Unit
  validate_check : String → String → Except CheckingError Unit

/-- The source's concrete `BankAccountServices`: both methods always answer Ok. -/
def BankAccountServices.live : BankAccountServices where
  atm_withdrawal := fun _ _ => Except.ok ()
  validate_check := fun _ _ => Except.ok ()

/-- A Services instance whose check validation rejects every check.  Used to
observe whether `handle` consults the service at all. -/
def BankAccountServices.rejectAllChecks : BankAccountServices where
  atm_withdrawal := fun _ _ => Except.ok ()
  validate_check := fun _ _ => Except.error ⟨⟩

/-- Aggregate state (`struct BankAccount { opened: bool, balance: f64 }`). -/
structure BankAccount where
  opened : Bool
  balance : ℚ
  deriving DecidableEq, Repr

/-- The Rust `Default` value: never-opened account, zero balance. -/
def BankAccount.default : BankAccount := { opened := false, balance := 0 }

/-- Command handler (`BankAccount::handle` in the `Aggregate` impl).  The
source matches on the command: deposits always succeed; withdrawals and
checks fail with the domain error "funds not available" when the new balance
would be negative; every other command (so in particular `OpenAccount`)
falls into the wildcard arm `_ => Ok(vec![])`.  The `services` argument is
received but never used by the source body. -/
def BankAccount.handle (self : BankAccount) (command : BankAccountCommand)
    (services : BankAccountServices) : Except BankAccountError (List BankAccountEvent) :=
  match command with
  | BankAccountCommand.DepositMoney amount =>
      let balance := self.balance + amount
      Except.ok [BankAccountEvent.CustomerDepositedMoney amount balance]
  | BankAccountCommand.WithdrawMoney amount =>
      let balance := self.balance - amount
      if balance < 0 then
        Except.error ⟨"funds not available"⟩
      else
        Except.ok [BankAccountEvent.CustomerWithdrewCash amount balance]
  | BankAccountCommand.WriteCheck check_number amount =>
      let balance := self.balance - amount
      if balance < 0 then
        Except.error ⟨"funds not available"⟩
      else
        Except.ok [BankAccountEvent.CustomerWroteCheck check_number amount balance]
  | _ => Except.ok []

/-- Event application (`BankAccount::apply`): one branch per event variant;
`AccountOpened` sets the opened flag, the three money events overwrite the
balance with the carried balance. -/
def BankAccount.apply (self : BankAccount) (event : BankAccountEvent) : BankAccount :=
  match event with
  | BankAccountEvent.AccountOpened _ => { self with opened := true }
  | BankAccountEvent.CustomerDepositedMoney _ balance => { self with balance := balance }
  | BankAccountEvent.CustomerWithdrewCash _ balance => { self with balance := balance }
  | BankAccountEvent.CustomerWroteCheck _ _ balance => { self with balance := balance }

/-- Panic-aware reading of `BankAccount::apply`, same branch structure, with
`some` for a panic-free arm (there is no panicking arm in the source). -/
def BankAccount.applyChecked (self : BankAccount) (event : BankAccountEvent) :
    Option BankAccount :=
  match event with
  | BankAccountEvent.AccountOpened _ => some { self with opened := true }
  | BankAccountEvent.CustomerDepositedMoney _ balance => some { self with balance := balance }
  | BankAccountEvent.CustomerWithdrewCash _ balance => some { self with balance := balance }
  | BankAccountEvent.CustomerWroteCheck _ _ balance => some { self with balance := balance }

/-- Committed event plus its stream position (`cqrs_es::EventEnvelope`,
restricted to the fields the source reads). -/
structure EventEnvelope where
  aggregate_id : String
  sequence : Nat
  payload : BankAccountEvent
  deriving DecidableEq, Repr

/-- View projector fold (`impl View<BankAccount> for BankAccount`, fn
`update`): only the `CustomerDepositedMoney` arm assigns the carried
balance; the `AccountOpened`, `CustomerWithdrewCash` and
`CustomerWroteCheck` arms are `todo!()` in the source, i.e. they panic,
modelled as `none`. -/
def BankAccount.update (self : BankAccount) (event : EventEnvelope) : Option BankAccount :=
  match event.payload with
  | BankAccountEvent.CustomerDepositedMoney _ balance => some { self with balance := balance }
  | BankAccountEvent.AccountOpened _ => none
  | BankAccountEvent.CustomerWithdrewCash _ _ => none
  | BankAccountEvent.CustomerWroteCheck _ _ _ => none

/-- Replay: fold a history of events into a state via `apply`, starting
from the default state (the Command Executor's step 2). -/
def BankAccount.fold (events : List BankAccountEvent) : BankAccount :=
  events.foldl BankAccount.apply BankAccount.default

/-- Claim C1 counterexample: a service whose check validation rejects every
check is injected, yet handling WriteCheck on a state with sufficient funds
still emits one CustomerWroteCheck event and returns no error, so handle
does not consult validate_check before emitting. -/
theorem writeCheck_ignores_rejecting_service :
    BankAccountServices.rejectAllChecks.validate_check "acct" "42" = Except.error ⟨⟩
    ∧ BankAccount.handle ⟨true, 50⟩ (BankAccountCommand.WriteCheck "42" 50)
        BankAccountServices.rejectAllChecks
        = Except.ok [BankAccountEvent.CustomerWroteCheck "42" 50 0] := by
  refine ⟨rfl, ?_⟩
  simp [BankAccount.handle]

/-- Claim C1, amended: handle never consults the injected check-validation
service: its result on WriteCheck is identical for any two injected
services, and is determined solely by the balance guard, failing with the
domain error "funds not available" (zero events) when the new balance would
be negative and otherwise emitting exactly one CustomerWroteCheck. -/
theorem handle_writeCheck_service_independent :
    ∀ (s : BankAccount) (n : String) (a : ℚ) (svc svc2 : BankAccountServices),
      BankAccount.handle s (BankAccountCommand.WriteCheck n a) svc
        = BankAccount.handle s (BankAccountCommand.WriteCheck n a) svc2
      ∧ BankAccount.handle s (BankAccountCommand.WriteCheck n a) svc
        = (if s.balance - a < 0 then Except.error ⟨"funds not available"⟩
           else Except.ok [BankAccountEvent.CustomerWroteCheck n a (s.balance - a)]) := by
  intro s n a svc svc2
  exact ⟨rfl, rfl⟩

/-- Claim C2 counterexample: on the never-opened default state, handling
OpenAccount emits nothing (the wildcard arm returns Ok with an empty event
list) instead of emitting AccountOpened. -/
theorem openAccount_fresh_emits_nothing :
    BankAccount.default.opened = false
    ∧ BankAccount.handle BankAccount.default (BankAccountCommand.OpenAccount "acct-1")
        BankAccountServices.live = Except.ok []
    ∧ (Except.ok [] : Except BankAccountError (List BankAccountEvent))
        ≠ Except.ok [BankAccountEvent.AccountOpened "acct-1"] := by
  refine ⟨rfl, rfl, ?_⟩
  simp

/-- Claim C2, amended: handling OpenAccount is a success-with-no-events
no-op on every state, opened or not: it falls into the wildcard arm and
returns Ok with the empty event list. -/
theorem handle_openAccount_noop :
    ∀ (s : BankAccount) (id : String) (svc : BankAccountServices),
      BankAccount.handle s (BankAccountCommand.OpenAccount id) svc = Except.ok [] := by
  intro s id svc
  rfl

/-- Claim C3 counterexample: CustomerWithdrewCash carries a balance, yet the
projector's update has no rule for it (the source arm is a panicking
todo!()), while the aggregate's apply does handle it. -/
theorem update_withdrawal_no_rule :
    BankAccount.update BankAccount.default
        ⟨"A", 1, BankAccountEvent.CustomerWithdrewCash 5 5⟩ = none
    ∧ (BankAccount.apply BankAccount.default
        (BankAccountEvent.CustomerWithdrewCash 5 5)).balance = 5 :=
  ⟨rfl, rfl⟩

/-- Claim C3, amended: only the CustomerDepositedMoney variant has an update
rule in the projector, and that rule mirrors apply (the view balance becomes
the carried balance); the AccountOpened, CustomerWithdrewCash and
CustomerWroteCheck variants have no rule and panic (todo!()). -/
theorem update_rules_characterization :
    ∀ (s : BankAccount) (env : EventEnvelope),
      (∀ a b, env.payload = BankAccountEvent.CustomerDepositedMoney a b →
          BankAccount.update s env = some { s with balance := b }
          ∧ b = (BankAccount.apply s env.payload).balance)
      ∧ (∀ id, env.payload = BankAccountEvent.AccountOpened id →
          BankAccount.update s env = none)
      ∧ (∀ a b, env.payload = BankAccountEvent.CustomerWithdrewCash a b →
          BankAccount.update s env = none)
      ∧ (∀ n a b, env.payload = BankAccountEvent.CustomerWroteCheck n a b →
          BankAccount.update s env = none) := by
  intro s env
  refine ⟨fun a b h => ⟨?_, ?_⟩, fun id h => ?_, fun a b h => ?_, fun n a b h => ?_⟩ <;>
    simp [BankAccount.update, BankAccount.apply, h]

/-- Witness for the amended C3 theorem at concrete envelopes. -/
theorem update_rules_characterization_witness :
    BankAccount.update BankAccount.default
        ⟨"A", 1, BankAccountEvent.CustomerDepositedMoney 7 7⟩
        = some { BankAccount.default with balance := 7 }
    ∧ BankAccount.update BankAccount.default
        ⟨"A", 2, BankAccountEvent.AccountOpened "A"⟩ = none
    ∧ BankAccount.update BankAccount.default
        ⟨"A", 3, BankAccountEvent.CustomerWroteCheck "c" 1 1⟩ = none :=
  ⟨((update_rules_characterization BankAccount.default
      ⟨"A", 1, BankAccountEvent.CustomerDepositedMoney 7 7⟩).1 7 7 rfl).1,
   (update_rules_characterization BankAccount.default
      ⟨"A", 2, BankAccountEvent.AccountOpened "A"⟩).2.1 "A" rfl,
   (update_rules_characterization BankAccount.default
      ⟨"A", 3, BankAccountEvent.CustomerWroteCheck "c" 1 1⟩).2.2.2 "c" 1 1 rfl⟩

/-- Claim C4: handling WithdrawMoney fails with the domain error
"funds not available" exactly when the current balance minus the amount is
negative (then no events are emitted, the result being an error), and
otherwise succeeds with exactly one CustomerWithdrewCash carrying the new
balance. -/
theorem handle_withdraw_spec :
    ∀ (s : BankAccount) (a : ℚ) (svc : BankAccountServices),
      (BankAccount.handle s (BankAccountCommand.WithdrawMoney a) svc
          = Except.error ⟨"funds not available"⟩ ↔ s.balance - a < 0)
      ∧ (¬ s.balance - a < 0 →
          BankAccount.handle s (BankAccountCommand.WithdrawMoney a) svc
            = Except.ok [BankAccountEvent.CustomerWithdrewCash a (s.balance - a)]) := by
  intro s a svc
  by_cases h : s.balance - a < 0 <;> simp [BankAccount.handle, h]

/-- Witness for C4: from the default state, withdrawing 200 is rejected with
"funds not available", and withdrawing 100 from balance 200 succeeds. -/
theorem handle_withdraw_spec_witness :
    BankAccount.handle BankAccount.default (BankAccountCommand.WithdrawMoney 200)
        BankAccountServices.live = Except.error ⟨"funds not available"⟩
    ∧ BankAccount.handle ⟨false, 200⟩ (BankAccountCommand.WithdrawMoney 200)
        BankAccountServices.live
        = Except.ok [BankAccountEvent.CustomerWithdrewCash 200 ((200 : ℚ) - 200)] :=
  ⟨(handle_withdraw_spec BankAccount.default 200 BankAccountServices.live).1.mpr
      (by simp [BankAccount.default]),
   (handle_withdraw_spec ⟨false, 200⟩ 200 BankAccountServices.live).2
      (by simp)⟩

/-- Claim C5: handling DepositMoney always succeeds and emits exactly one
CustomerDepositedMoney carrying the deposited amount and the new balance
(old balance plus amount); in particular, from the default state,
DepositMoney 200 yields one CustomerDepositedMoney with amount 200 and
balance 200. -/
theorem handle_deposit_spec :
    (∀ (s : BankAccount) (a : ℚ) (svc : BankAccountServices),
        BankAccount.handle s (BankAccountCommand.DepositMoney a) svc
          = Except.ok [BankAccountEvent.CustomerDepositedMoney a (s.balance + a)])
    ∧ BankAccount.handle BankAccount.default (BankAccountCommand.DepositMoney 200)
        BankAccountServices.live
        = Except.ok [BankAccountEvent.CustomerDepositedMoney 200 200] := by
  refine ⟨fun s a svc => rfl, ?_⟩
  simp [BankAccount.handle, BankAccount.default]

/-- Claim C6: apply turns the opened flag on only for AccountOpened events,
never turns it off, and therefore along any replayed event sequence the
flag stays true once set. -/
theorem apply_opened_monotone :
    (∀ (s : BankAccount) (e : BankAccountEvent),
        s.opened = false → (BankAccount.apply s e).opened = true →
          ∃ id, e = BankAccountEvent.AccountOpened id)
    ∧ (∀ (s : BankAccount) (e : BankAccountEvent),
        s.opened = true → (BankAccount.apply s e).opened = true)
    ∧ (∀ (s : BankAccount) (evs : List BankAccountEvent),
        s.opened = true → (evs.foldl BankAccount.apply s).opened = true) := by
  have h2 : ∀ (s : BankAccount) (e : BankAccountEvent),
      s.opened = true → (BankAccount.apply s e).opened = true := by
    intro s e hs
    cases e <;> simp [BankAccount.apply, hs]
  refine ⟨?_, h2, ?_⟩
  · intro s e hs happ
    cases e with
    | AccountOpened id => exact ⟨id, rfl⟩
    | CustomerDepositedMoney a b => simp [BankAccount.apply, hs] at happ
    | CustomerWithdrewCash a b => simp [BankAccount.apply, hs] at happ
    | CustomerWroteCheck n a b => simp [BankAccount.apply, hs] at happ
  · intro s evs
    induction evs generalizing s with
    | nil => intro hs; simpa using hs
    | cons e t ih => intro hs; exact ih (BankAccount.apply s e) (h2 s e hs)

/-- Witness for C6 at concrete states and events. -/
theorem apply_opened_monotone_witness :
    (∃ id, BankAccountEvent.AccountOpened "A" = BankAccountEvent.AccountOpened id)
    ∧ (BankAccount.apply ⟨true, 5⟩ (BankAccountEvent.CustomerWithdrewCash 1 1)).opened = true
    ∧ ([BankAccountEvent.CustomerDepositedMoney 7 7,
        BankAccountEvent.CustomerWroteCheck "9" 2 5].foldl
          BankAccount.apply ⟨true, 0⟩).opened = true :=
  ⟨apply_opened_monotone.1 BankAccount.default (BankAccountEvent.AccountOpened "A") rfl rfl,
   apply_opened_monotone.2.1 ⟨true, 5⟩ (BankAccountEvent.CustomerWithdrewCash 1 1) rfl,
   apply_opened_monotone.2.2 ⟨true, 0⟩
      [BankAccountEvent.CustomerDepositedMoney 7 7,
       BankAccountEvent.CustomerWroteCheck "9" 2 5] rfl⟩

/-- Claim C7: apply is total over every state and every event variant: its
panic-aware reading succeeds (returns some) on all four variants, agreeing
with the plain function. -/
theorem applyChecked_total :
    ∀ (s : BankAccount) (e : BankAccountEvent),
      BankAccount.applyChecked s e = some (BankAccount.apply s e) := by
  intro s e
  cases e <;> rfl

/-- Claim C8: apply overwrites exactly the fields the event carries:
AccountOpened leaves the balance unchanged, and the three money events
leave the opened flag unchanged. -/
theorem apply_frame :
    ∀ (s : BankAccount),
      (∀ id, (BankAccount.apply s (BankAccountEvent.AccountOpened id)).balance = s.balance)
      ∧ (∀ a b, (BankAccount.apply s
          (BankAccountEvent.CustomerDepositedMoney a b)).opened = s.opened)
      ∧ (∀ a b, (BankAccount.apply s
          (BankAccountEvent.CustomerWithdrewCash a b)).opened = s.opened)
      ∧ (∀ n a b, (BankAccount.apply s
          (BankAccountEvent.CustomerWroteCheck n a b)).opened = s.opened) := by
  intro s
  exact ⟨fun _ => rfl, fun _ _ => rfl, fun _ _ => rfl, fun _ _ _ => rfl⟩

/-- Claim C9: apply is idempotent for a fixed input event: applying the same
event a second time to the result yields the identical state (and apply is a
function of the pair, hence deterministic). -/
theorem apply_idempotent :
    ∀ (s : BankAccount) (e : BankAccountEvent),
      BankAccount.apply (BankAccount.apply s e) e = BankAccount.apply s e := by
  intro s e
  cases e <;> rfl

/-- Claim C10: handle performs no positivity check on deposit amounts: even
a negative amount succeeds and emits a CustomerDepositedMoney whose carried
balance is the old balance plus the (negative) amount; from the default
state, DepositMoney (-5) emits an event carrying balance -5, below zero,
with no insufficient-funds guard involved. -/
theorem handle_deposit_no_positivity_guard :
    (∀ (s : BankAccount) (a : ℚ) (svc : BankAccountServices), a < 0 →
        BankAccount.handle s (BankAccountCommand.DepositMoney a) svc
          = Except.ok [BankAccountEvent.CustomerDepositedMoney a (s.balance + a)])
    ∧ BankAccount.handle BankAccount.default (BankAccountCommand.DepositMoney (-5))
        BankAccountServices.live
        = Except.ok [BankAccountEvent.CustomerDepositedMoney (-5) (-5)]
    ∧ ((-5 : ℚ) < 0) := by
  refine ⟨fun s a svc _ => rfl, ?_, by norm_num⟩
  simp [BankAccount.handle, BankAccount.default]

/-- Witness for C10: a concrete negative deposit accepted by handle. -/
theorem handle_deposit_no_positivity_guard_witness :
    ((-3 : ℚ) < 0)
    ∧ BankAccount.handle BankAccount.default (BankAccountCommand.DepositMoney (-3))
        BankAccountServices.live
        = Except.ok [BankAccountEvent.CustomerDepositedMoney (-3)
            (BankAccount.default.balance + (-3))] :=
  ⟨by simp,
   handle_deposit_no_positivity_guard.1 BankAccount.default (-3)
      BankAccountServices.live (by simp)⟩
